import Mathlib

/-
Shallow embedding of src/index.ts of axios-error-manager: an error-handler
registry (class ErrorHandlerRegistry) with key-based lookup, parent
delegation, a notifier side channel, and the axios-specific dispatch policy
(responseErrorHandler / handleAxiosError / createDealWith).

Modelling conventions:
- JS strings/booleans/naturals are String/Bool/Nat; optional fields are
  Option; absent records are Option of a structure.
- The notifier is an external callback; installing one is recorded by an
  opaque numeric identifier, and an invocation is recorded as a
  Notification value appended to an event trace that every operation
  returns alongside its outcome.
- Methods are state-passing functions: each returns its outcome, the trace
  of notifier invocations, and the (possibly updated) registry, so that
  absence of mutation is a theorem rather than a modelling assumption.
- A JS throw is the Outcome.thrown case; normal completion is Outcome.ret
  (returning undefined is ret () at type Outcome Unit).
-/

namespace AEM

/-- Dynamic values carried in a notify payload / notifier options record. -/
inductive NVal where
  | str (s : String)
  | num (n : Nat)
  | other (tag : Nat)
deriving DecidableEq

/-- Behaviour of a before/after hook on a given raw failure: it either
completes normally or throws an exception (identified by an opaque tag). -/
inductive HookBeh where
  | ok
  | raise (tag : Nat)
deriving DecidableEq

/-- Axios per-request config, as augmented by the library (raw, silent). An
absent flag behaves like false, which is how the code consumes it. -/
structure AxiosConfig where
  raw : Bool
  silent : Bool
deriving DecidableEq

/-- Response body fields consulted by handleAxiosError. `status = 0` plays
the role of an absent/falsy status, matching the truthiness test. -/
structure RespData where
  message : Option String
  description : Option String
  code : Option String
  status : Nat
deriving DecidableEq

/-- Axios response: body data (possibly absent) and HTTP status. -/
structure AxiosResp where
  data : Option RespData
  status : Nat
deriving DecidableEq

/-- Axios error object: the fields read by handleAxiosError. -/
structure AxiosErr where
  response : Option AxiosResp
  config : Option AxiosConfig
  code : Option String
  name : String
  message : String
deriving DecidableEq

/-- Classification of the raw failure passed to responseErrorHandler:
null, an axios error (isAxiosError true), a generic Error instance
(name/message), or any other value (opaque tag). -/
inductive RawError where
  | nullErr
  | axios (e : AxiosErr)
  | jsError (name : String) (message : String)
  | other (tag : Nat)
deriving DecidableEq

/-- Exceptions thrown by the embedded code: ApiError (the normalized error)
carrying a message, a plain low-level Error, a rethrow of the original
failure (identity preserved), or an exception propagated out of a hook. -/
inductive Exn where
  | apiError (message : String)
  | plainError (message : String)
  | original (e : RawError)
  | hookExn (tag : Nat)
deriving DecidableEq

/-- Result of running a statement: normal completion with a value, or a
thrown exception. -/
inductive Outcome (α : Type) where
  | ret (a : α)
  | thrown (e : Exn)
deriving DecidableEq

/-- Descriptor (interface ErrorHandlerObject): required message, optional
before/after hooks, silent flag, notify payload. A hook is modelled as a
function of the raw failure alone: in every call site the second argument
passed to it is the descriptor containing it, so it carries no extra
information. An absent notify payload is the empty record. -/
structure ErrorHandlerObject where
  message : String
  before : Option (RawError → HookBeh)
  after : Option (RawError → HookBeh)
  silent : Bool
  notify : List (String × NVal)

/-- Possible results of an ErrorHandlerFunction: an ErrorHandlerObject, a
boolean, or undefined (void). -/
inductive FuncResult where
  | handlerObj (o : ErrorHandlerObject)
  | boolVal (b : Bool)
  | voidVal

/-- Registered handler (type ErrorHandler): a plain string, a resolver
function, or a descriptor object. -/
inductive ErrorHandler where
  | str (s : String)
  | func (f : RawError → FuncResult)
  | obj (o : ErrorHandlerObject)

/-- Type guard isErrorHandlerObject, evaluated on the possible runtime
results of a resolver function: a (well-typed) ErrorHandlerObject is a
non-array object exposing the message key, so the recognised-key test
succeeds; booleans and undefined are not objects. -/
def isErrorHandlerObject : FuncResult → Bool
  | .handlerObj _ => true
  | .boolVal _ => false
  | .voidVal => false

/-- JS truthiness of a stored handler value, as tested by `if (handler)`:
functions and objects are truthy; a string is truthy iff non-empty. -/
def ErrorHandler.truthy : ErrorHandler → Bool
  | .str s => s ≠ ""
  | .func _ => true
  | .obj _ => true

/-- Map.get on the handlers mapping (first matching key; mapSet keeps keys
unique). -/
def mapGet (m : List (String × ErrorHandler)) (k : String) : Option ErrorHandler :=
  match m with
  | [] => none
  | (k2, v) :: rest => if k2 = k then some v else mapGet rest k

/-- Map.set: overwrite the entry in place if the key is present, append
otherwise. -/
def mapSet (m : List (String × ErrorHandler)) (k : String) (v : ErrorHandler) :
    List (String × ErrorHandler) :=
  match m with
  | [] => [(k, v)]
  | (k2, v2) :: rest => if k2 = k then (k, v) :: rest else (k2, v2) :: mapSet rest k v

/-- Map.delete: remove the entry if present. -/
def mapDelete (m : List (String × ErrorHandler)) (k : String) :
    List (String × ErrorHandler) :=
  match m with
  | [] => []
  | (k2, v2) :: rest => if k2 = k then rest else (k2, v2) :: mapDelete rest k

/-- State of an ErrorHandlerRegistry instance: handlers map, installed
notifier (opaque identifier of the callback), and parent. The nullable
parent field of the class is split into the root (parent = null) and child
(parent present) constructors so that recursion along the parent chain is
structural. -/
inductive ErrorHandlerRegistry where
  | root (handlers : List (String × ErrorHandler)) (notifier : Nat)
  | child (handlers : List (String × ErrorHandler)) (notifier : Nat)
      (parent : ErrorHandlerRegistry)

namespace ErrorHandlerRegistry

def handlers : ErrorHandlerRegistry → List (String × ErrorHandler)
  | .root hs _ => hs
  | .child hs _ _ => hs

def notifier : ErrorHandlerRegistry → Nat
  | .root _ n => n
  | .child _ n _ => n

def parent : ErrorHandlerRegistry → Option ErrorHandlerRegistry
  | .root _ _ => none
  | .child _ _ p => some p

/-- Helper: replace the handlers mapping, keeping notifier and parent. -/
def withHandlers : ErrorHandlerRegistry → List (String × ErrorHandler) →
    ErrorHandlerRegistry
  | .root _ n, hs => .root hs n
  | .child _ n p, hs => .child hs n p

/-- Method register: this.handlers.set(key, handler). -/
def register (st : ErrorHandlerRegistry) (key : String) (handler : ErrorHandler) :
    ErrorHandlerRegistry :=
  st.withHandlers (mapSet st.handlers key handler)

/-- Method unregister: this.handlers.delete(key). -/
def unregister (st : ErrorHandlerRegistry) (key : String) : ErrorHandlerRegistry :=
  st.withHandlers (mapDelete st.handlers key)

/-- Method setNotifier: replaces the notifier (the argument is always a
function in the typed model, so the typeof guard always passes). -/
def setNotifier : ErrorHandlerRegistry → Nat → ErrorHandlerRegistry
  | .root hs _, n => .root hs n
  | .child hs _ p, n => .child hs n p

/-- Method registerMany: register every entry of the input record in
iteration order. -/
def registerMany (st : ErrorHandlerRegistry) (input : List (String × ErrorHandler)) :
    ErrorHandlerRegistry :=
  input.foldl (fun s kv => s.register kv.1 kv.2) st

/-- Identifier of defaultNotifier (installed when no notifier is given). -/
def defaultNotifierId : Nat := 0

/-- Constructor: empty map, parent ?? null, supplied-or-default notifier,
then registerMany over the optional initial input. -/
def new (par : Option ErrorHandlerRegistry) (input : List (String × ErrorHandler))
    (ntf : Option Nat) : ErrorHandlerRegistry :=
  let base := match par with
    | some p => ErrorHandlerRegistry.child [] (ntf.getD defaultNotifierId) p
    | none => ErrorHandlerRegistry.root [] (ntf.getD defaultNotifierId)
  base.registerMany input

/-- Method find: local Map.get, truthiness test `if (handler)`, then
optional-chained recursion into the parent. The state is threaded through
the parent call and returned. -/
def find : ErrorHandlerRegistry → String → Option ErrorHandler × ErrorHandlerRegistry
  | .root hs n, seek =>
    match mapGet hs seek with
    | some handler =>
      if handler.truthy then (some handler, .root hs n) else (none, .root hs n)
    | none => (none, .root hs n)
  | .child hs n p, seek =>
    match mapGet hs seek with
    | some handler =>
      if handler.truthy then (some handler, .child hs n p)
      else ((p.find seek).1, .child hs n (p.find seek).2)
    | none => ((p.find seek).1, .child hs n (p.find seek).2)

end ErrorHandlerRegistry

/-- Record of one notifier invocation: which notifier was called and the
options object it received, written as the ordered key/value entries of the
object literal (spread semantics: later entries win). -/
structure Notification where
  notifierId : Nat
  options : List (String × NVal)
deriving DecidableEq

/-- Lookup of a field in a JS object literal given as ordered key/value
entries: the last entry for the key wins (object spread semantics). -/
def getField (o : List (String × NVal)) (k : String) : Option NVal :=
  o.foldl (fun acc p => if p.1 = k then some p.2 else acc) none

/-- Optional-chained hook call: absent hooks complete normally. -/
def runHook (hk : Option (RawError → HookBeh)) (e : RawError) : HookBeh :=
  match hk with
  | some f => f e
  | none => .ok

/-- Result triple of an effectful method: outcome, trace of notifier
invocations, final registry state. -/
abbrev Res (α : Type) : Type :=
  Outcome α × List Notification × ErrorHandlerRegistry

namespace ErrorHandlerRegistry

/-- Method handleErrorObject: run the before hook, notify unless silent
(with the literal `type: negative, message, ...notify` object), run the
after hook, then throw ApiError(options.message). A hook that throws
short-circuits the remaining steps. -/
def handleErrorObject (st : ErrorHandlerRegistry) (error : RawError)
    (options : ErrorHandlerObject) : Res Unit :=
  match runHook options.before error with
  | .raise t => (.thrown (.hookExn t), [], st)
  | .ok =>
    let ns : List Notification :=
      if options.silent then []
      else
        [⟨st.notifier,
          ("type", NVal.str "negative") :: ("message", NVal.str options.message)
            :: options.notify⟩]
    match runHook options.after error with
    | .raise t => (.thrown (.hookExn t), ns, st)
    | .ok => (.thrown (.apiError options.message), ns, st)

/-- Conclusion of the string/object branches of handleError: the call to
handleErrorObject followed by `return true` (a thrown exception
propagates, a normal completion is replaced by true). -/
def execThenTrue (st : ErrorHandlerRegistry) (error : RawError)
    (options : ErrorHandlerObject) : Res Bool :=
  let r := st.handleErrorObject error options
  match r.1 with
  | .thrown ex => (.thrown ex, r.2.1, r.2.2)
  | .ret _ => (.ret true, r.2.1, r.2.2)

/-- Method handleError on a single string key: find, `if (!handler)` return
false, then branch on the runtime shape of the handler (the branches are
written truthy-first; the source tests `!handler` first and returns false).
The string and object branches call handleErrorObject and then
`return true`; the function branch only does so when its result passes
isErrorHandlerObject. -/
def handleError1 (st : ErrorHandlerRegistry) (seek : String) (error : RawError) :
    Res Bool :=
  let fr := st.find seek
  let st1 := fr.2
  match fr.1 with
  | none => (.ret false, [], st1)
  | some handler =>
    if handler.truthy then
      match handler with
      | .str s =>
        st1.execThenTrue error
          { message := s, before := none, after := none, silent := false,
            notify := [] }
      | .func f =>
        let result := f error
        if isErrorHandlerObject result then
          match result with
          | .handlerObj o => st1.execThenTrue error o
          | _ => (.ret false, [], st1)
        else (.ret false, [], st1)
      | .obj o => st1.execThenTrue error o
    else (.ret false, [], st1)

/-- Method handleError on an array of candidate keys:
seek.some(key lambda) — left to right, skipping undefined entries,
short-circuiting on a true result, propagating a thrown exception. -/
def handleErrorList (st : ErrorHandlerRegistry) (seek : List (Option String))
    (error : RawError) : Res Bool :=
  match seek with
  | [] => (.ret false, [], st)
  | none :: rest => st.handleErrorList rest error
  | some k :: rest =>
    let r := st.handleError1 k error
    match r.1 with
    | .thrown ex => (.thrown ex, r.2.1, r.2.2)
    | .ret true => (.ret true, r.2.1, r.2.2)
    | .ret false =>
      let r2 := r.2.2.handleErrorList rest error
      (r2.1, r.2.1 ++ r2.2.1, r2.2.2)

end ErrorHandlerRegistry

/-- Argument of handleError: a single string key or an array of candidate
keys, some of which may be undefined. -/
inductive SeekArg where
  | one (s : String)
  | many (l : List (Option String))

namespace ErrorHandlerRegistry

/-- Method handleError, dispatching on the shape of its first argument
(Array.isArray test). -/
def handleError (st : ErrorHandlerRegistry) (seek : SeekArg) (error : RawError) :
    Res Bool :=
  match seek with
  | .one s => st.handleError1 s error
  | .many l => st.handleErrorList l error

end ErrorHandlerRegistry

/-- Truthy-string test `x && typeof x === 'string'` on an optional field
whose value, when present, is a string. -/
def isNonEmptyStr : Option String → Bool
  | some s => s ≠ ""
  | none => false

/-- Truthiness of config?.raw. -/
def rawFlag (config : Option AxiosConfig) : Bool :=
  match config with
  | some c => c.raw
  | none => false

/-- Value of `config?.silent as boolean` as it is consumed (an undefined
silent behaves as false everywhere it is read). -/
def silentFlag (config : Option AxiosConfig) : Bool :=
  match config with
  | some c => c.silent
  | none => false

/-- Candidate key list built by handleAxiosError:
data?.code, error.code, error.name, String(data.status) when truthy,
String(response.status) when truthy. -/
def seekersOf (error : AxiosErr) : List (Option String) :=
  let data := error.response.bind AxiosResp.data
  [data.bind RespData.code,
    error.code,
    some error.name,
    match data with
    | some d => if d.status ≠ 0 then some (toString d.status) else none
    | none => none,
    match error.response with
    | some r => if r.status ≠ 0 then some (toString r.status) else none
    | none => none]

/-- Nullish-coalescing chain `data?.message ?? data?.description ??
error.message` used for the fallback descriptor. -/
def fallbackMessage (error : AxiosErr) : String :=
  let data := error.response.bind AxiosResp.data
  match data.bind RespData.message with
  | some m => m
  | none =>
    match data.bind RespData.description with
    | some d => d
    | none => error.message

namespace ErrorHandlerRegistry

/-- Method handleAxiosError: raw-override re-raise, body-message-wins
branch, key search over the seekers, then the fallback descriptor or an
implicit `return undefined`. -/
def handleAxiosError (st : ErrorHandlerRegistry) (error : AxiosErr)
    (direct : Bool) : Res Unit :=
  let data := error.response.bind AxiosResp.data
  let silent := silentFlag error.config
  if !direct && rawFlag error.config then
    (.thrown (.original (.axios error)), [], st)
  else if isNonEmptyStr (data.bind RespData.message) then
    st.handleErrorObject (.axios error)
      { message := (data.bind RespData.message).getD "", before := none,
        after := none, silent := silent, notify := [] }
  else
    let r := st.handleErrorList (seekersOf error) (.axios error)
    match r.1 with
    | .thrown ex => (.thrown ex, r.2.1, r.2.2)
    | .ret handled =>
      if !handled then
        if isNonEmptyStr (data.bind RespData.message)
            || isNonEmptyStr (data.bind RespData.description)
            || isNonEmptyStr (some error.message) then
          let r2 := r.2.2.handleErrorObject (.axios error)
            { message := fallbackMessage error, before := none, after := none,
              silent := silent, notify := [] }
          (r2.1, r.2.1 ++ r2.2.1, r2.2.2)
        else (.ret (), r.2.1, r.2.2)
      else (.ret (), r.2.1, r.2.2)

/-- Method responseErrorHandler: null check, isAxiosError branch,
instanceof Error branch (handleError on error.name, result discarded),
then rethrow of the original failure. -/
def responseErrorHandler (st : ErrorHandlerRegistry) (error : RawError)
    (direct : Bool) : Res Unit :=
  match error with
  | .nullErr => (.thrown (.plainError "Unrecoverable error: error is null"), [], st)
  | .axios e => st.handleAxiosError e direct
  | .jsError nm msg =>
    let r := st.handleError1 nm (.jsError nm msg)
    match r.1 with
    | .thrown ex => (.thrown ex, r.2.1, r.2.2)
    | .ret _ => (.thrown (.original (.jsError nm msg)), r.2.1, r.2.2)
  | .other t => (.thrown (.original (.other t)), [], st)

end ErrorHandlerRegistry

/-- Factory createDealWith: builds a local registry parented to the global
one unless ignoreGlobal, seeds it with the solutions, and returns a closure
dispatching with direct = true. -/
def createDealWith (globalHandlers : ErrorHandlerRegistry) (ntf : Option Nat)
    (solutions : List (String × ErrorHandler)) (ignoreGlobal : Bool) :
    RawError → Res Unit :=
  let par := if ignoreGlobal then none else some globalHandlers
  let localReg := ErrorHandlerRegistry.new par solutions ntf
  fun error => localReg.responseErrorHandler error true

/-- Search procedure written from the spec sentence for the multi-key
claim: tries each candidate in order, skipping undefined entries, and stops
at the first key for which dispatch succeeds; a failed attempt is assumed
to leave no trace and no state change. It is compared with the code's
handleErrorList. -/
def leftToRightFirstSuccess (st : ErrorHandlerRegistry)
    (keys : List (Option String)) (e : RawError) : Res Bool :=
  match keys with
  | [] => (.ret false, [], st)
  | none :: rest => leftToRightFirstSuccess st rest e
  | some k :: rest =>
    let r := st.handleError1 k e
    match r.1 with
    | .ret false => leftToRightFirstSuccess st rest e
    | _ => r

/-
Concrete fixtures used by witness and counterexample theorems.
-/

/-- Registry with no handlers and the default notifier. -/
def emptyRegistry : ErrorHandlerRegistry := .root [] 0

/-- Axios failure with no response, no config, no code and an empty
message: every dispatch avenue is unavailable. -/
def noAvenueAxiosErr : AxiosErr := ⟨none, none, none, "AxiosError", ""⟩

/-- Registry whose only handler is the empty string registered under k. -/
def emptyStringRegistry : ErrorHandlerRegistry := .root [("k", .str "")] 0

/-- Child whose entry for k is the empty string, over a parent whose entry
for k is the message p. -/
def shadowedChildRegistry : ErrorHandlerRegistry :=
  .child [("k", .str "")] 0 (.root [("k", .str "p")] 0)

/-- Registry with a string handler registered under the key ECODE. -/
def ecodeRegistry : ErrorHandlerRegistry := .root [("ECODE", .str "handled")] 0

/-- Axios failure with config.silent = true and code ECODE, whose response
carries no body, so dispatch resolves through the key registry. -/
def silentKeyAxiosErr : AxiosErr :=
  ⟨none, some ⟨false, true⟩, some "ECODE", "AxiosError", "x"⟩

/-- Axios failure whose body message is msg API and whose config has
silent = true. -/
def silentBodyAxiosErr : AxiosErr :=
  ⟨some ⟨some ⟨some "msg API", none, none, 0⟩, 400⟩, some ⟨false, true⟩, none,
    "AxiosError", "axios"⟩

/-- Descriptor with message m, no hooks, silent = false, empty payload. -/
def plainDescriptor : ErrorHandlerObject := ⟨"m", none, none, false, []⟩

/-- Axios failure with config.raw = true, a status-500 response with empty
body, and message m. -/
def rawAxiosErr : AxiosErr :=
  ⟨some ⟨some ⟨none, none, none, 0⟩, 500⟩, some ⟨true, false⟩, none,
    "AxiosError", "m"⟩

/-- Registry with a string handler under the key good. -/
def goodRegistry : ErrorHandlerRegistry := .root [("good", .str "ok")] 0

/-- Descriptor with message m, no hooks, silent false, and a one-entry
notify payload. -/
def payloadDescriptor : ErrorHandlerObject :=
  ⟨"m", none, none, false, [("extra", NVal.num 42)]⟩

/-- Axios failure carrying both a body message and a code registered in
ecodeRegistry, with silent false. -/
def bodyWinsAxiosErr : AxiosErr :=
  ⟨some ⟨some ⟨some "msg API", none, none, 0⟩, 400⟩, some ⟨false, false⟩,
    some "ECODE", "AxiosError", "axios"⟩

/-- Condition under which handleAxiosError reaches its implicit
`return undefined`: the raw passthrough is not taken, the body has no
non-empty message, the key search over the seekers returns false, the body
has no non-empty description, and the failure's own message is empty. -/
def voidFallthrough (st : ErrorHandlerRegistry) (a : AxiosErr)
    (direct : Bool) : Prop :=
  (!direct && rawFlag a.config) = false ∧
  isNonEmptyStr ((a.response.bind AxiosResp.data).bind RespData.message) = false ∧
  (st.handleErrorList (seekersOf a) (RawError.axios a)).1 = Outcome.ret false ∧
  isNonEmptyStr ((a.response.bind AxiosResp.data).bind RespData.description) = false ∧
  a.message = ""

/-- Presence of a truthy entry for k somewhere along the child-to-parent
chain (a falsy local entry does not count and the chain is consulted
further). -/
def chainHasTruthyEntry : ErrorHandlerRegistry → String → Bool
  | .root hs _, k =>
    match mapGet hs k with
    | some h => h.truthy
    | none => false
  | .child hs _ p, k =>
    match mapGet hs k with
    | some h => h.truthy || chainHasTruthyEntry p k
    | none => chainHasTruthyEntry p k

/-- Overwrite the raw flag inside the config of an axios failure, when a
config is present. -/
def setConfigRaw (a : AxiosErr) (b : Bool) : AxiosErr :=
  match a.config with
  | some c => { a with config := some { c with raw := b } }
  | none => a

/-
Helper lemmas about the embedded operations, shared by the claim theorems.
-/

namespace ErrorHandlerRegistry

theorem handleErrorObject_throws (st : ErrorHandlerRegistry) (e : RawError)
    (o : ErrorHandlerObject) :
    ∃ ex, (st.handleErrorObject e o).1 = Outcome.thrown ex := by
  cases hb : runHook o.before e with
  | raise t => exact ⟨.hookExn t, by simp [handleErrorObject, hb]⟩
  | ok =>
    cases ha : runHook o.after e with
    | raise t => exact ⟨.hookExn t, by simp [handleErrorObject, hb, ha]⟩
    | ok => exact ⟨.apiError o.message, by simp [handleErrorObject, hb, ha]⟩

theorem handleErrorObject_frame (st : ErrorHandlerRegistry) (e : RawError)
    (o : ErrorHandlerObject) : (st.handleErrorObject e o).2.2 = st := by
  cases hb : runHook o.before e <;>
    cases ha : runHook o.after e <;>
      simp [handleErrorObject, hb, ha]

theorem handleErrorObject_notifs_le (st : ErrorHandlerRegistry) (e : RawError)
    (o : ErrorHandlerObject) : (st.handleErrorObject e o).2.1.length ≤ 1 := by
  cases hb : runHook o.before e <;>
    cases ha : runHook o.after e <;>
      cases hs : o.silent <;>
        simp [handleErrorObject, hb, ha, hs]

theorem handleErrorObject_exn_shape (st : ErrorHandlerRegistry) (e : RawError)
    (o : ErrorHandlerObject) (ex : Exn)
    (h : (st.handleErrorObject e o).1 = Outcome.thrown ex) :
    ex = Exn.apiError o.message ∨ ∃ t, ex = Exn.hookExn t := by
  cases hb : runHook o.before e with
  | raise t =>
    simp [handleErrorObject, hb] at h
    exact Or.inr ⟨t, h.symm⟩
  | ok =>
    cases ha : runHook o.after e with
    | raise t =>
      simp [handleErrorObject, hb, ha] at h
      exact Or.inr ⟨t, h.symm⟩
    | ok =>
      simp [handleErrorObject, hb, ha] at h
      exact Or.inl h.symm

theorem handleErrorObject_silent (st : ErrorHandlerRegistry) (e : RawError)
    (o : ErrorHandlerObject) (hs : o.silent = true) :
    (st.handleErrorObject e o).2.1 = [] := by
  cases hb : runHook o.before e <;>
    cases ha : runHook o.after e <;>
      simp [handleErrorObject, hb, ha, hs]

theorem handleErrorObject_notifs_of_before_ok (st : ErrorHandlerRegistry)
    (e : RawError) (o : ErrorHandlerObject) (hb : runHook o.before e = HookBeh.ok)
    (hs : o.silent = false) :
    (st.handleErrorObject e o).2.1 =
      [⟨st.notifier,
        ("type", NVal.str "negative") :: ("message", NVal.str o.message)
          :: o.notify⟩] := by
  cases ha : runHook o.after e <;>
    simp [handleErrorObject, hb, ha, hs]

theorem handleErrorObject_hooks_ok (st : ErrorHandlerRegistry) (e : RawError)
    (o : ErrorHandlerObject) (hb : runHook o.before e = HookBeh.ok)
    (ha : runHook o.after e = HookBeh.ok) :
    (st.handleErrorObject e o).1 = Outcome.thrown (Exn.apiError o.message) := by
  simp [handleErrorObject, hb, ha]

theorem find_frame (st : ErrorHandlerRegistry) (k : String) :
    (st.find k).2 = st := by
  induction st with
  | root hs n =>
    cases hg : mapGet hs k with
    | none => simp [find, hg]
    | some handler =>
      by_cases ht : handler.truthy <;> simp [find, hg, ht]
  | child hs n p ih =>
    cases hg : mapGet hs k with
    | none => simp [find, hg, ih]
    | some handler =>
      by_cases ht : handler.truthy <;> simp [find, hg, ht, ih]

theorem find_truthy (st : ErrorHandlerRegistry) (k : String)
    (h : ErrorHandler) (hf : (st.find k).1 = some h) : h.truthy = true := by
  induction st with
  | root hs n =>
    cases hg : mapGet hs k with
    | none => simp [find, hg] at hf
    | some handler =>
      by_cases ht : handler.truthy
      · simp [find, hg, ht] at hf
        simpa [hf] using ht
      · simp [find, hg, ht] at hf
  | child hs n p ih =>
    cases hg : mapGet hs k with
    | none =>
      simp [find, hg] at hf
      exact ih hf
    | some handler =>
      by_cases ht : handler.truthy
      · simp [find, hg, ht] at hf
        simpa [hf] using ht
      · simp [find, hg, ht] at hf
        exact ih hf

theorem execThenTrue_spec (st : ErrorHandlerRegistry) (e : RawError)
    (o : ErrorHandlerObject) :
    ∃ ex, (st.handleErrorObject e o).1 = Outcome.thrown ex ∧
      st.execThenTrue e o =
        (Outcome.thrown ex, (st.handleErrorObject e o).2.1, st) := by
  obtain ⟨ex, hex⟩ := handleErrorObject_throws st e o
  exact ⟨ex, hex, by simp [execThenTrue, hex, handleErrorObject_frame]⟩

theorem execThenTrue_ne_ret (st : ErrorHandlerRegistry) (e : RawError)
    (o : ErrorHandlerObject) (b : Bool) :
    (st.execThenTrue e o).1 ≠ Outcome.ret b := by
  obtain ⟨ex, _, hr⟩ := execThenTrue_spec st e o
  simp [hr]

theorem handleError1_spec (st : ErrorHandlerRegistry) (k : String) (e : RawError) :
    st.handleError1 k e = (Outcome.ret false, [], st) ∨
    ∃ o ex, (st.handleErrorObject e o).1 = Outcome.thrown ex ∧
      st.handleError1 k e =
        (Outcome.thrown ex, (st.handleErrorObject e o).2.1, st) := by
  unfold handleError1
  simp only [find_frame]
  cases hf : (st.find k).1 with
  | none => exact Or.inl rfl
  | some handler =>
    have ht := find_truthy st k handler hf
    cases handler with
    | str s =>
      obtain ⟨ex, hex, hr⟩ := execThenTrue_spec st e
        { message := s, before := none, after := none, silent := false,
          notify := [] }
      exact Or.inr ⟨_, ex, hex, by simp [ht, hr]⟩
    | func f =>
      cases hfr : f e with
      | handlerObj o =>
        obtain ⟨ex, hex, hr⟩ := execThenTrue_spec st e o
        exact Or.inr ⟨o, ex, hex, by simp [ht, hfr, isErrorHandlerObject, hr]⟩
      | boolVal b => exact Or.inl (by simp [ht, hfr, isErrorHandlerObject])
      | voidVal => exact Or.inl (by simp [ht, hfr, isErrorHandlerObject])
    | obj o =>
      obtain ⟨ex, hex, hr⟩ := execThenTrue_spec st e o
      exact Or.inr ⟨o, ex, hex, by simp [ht, hr]⟩

theorem handleError1_frame (st : ErrorHandlerRegistry) (k : String) (e : RawError) :
    (st.handleError1 k e).2.2 = st := by
  rcases handleError1_spec st k e with h | ⟨o, ex, _, h⟩ <;> simp [h]

theorem handleError1_ne_true (st : ErrorHandlerRegistry) (k : String)
    (e : RawError) : (st.handleError1 k e).1 ≠ Outcome.ret true := by
  rcases handleError1_spec st k e with h | ⟨o, ex, _, h⟩ <;> simp [h]

theorem handleError1_ret_notifs (st : ErrorHandlerRegistry) (k : String)
    (e : RawError) (b : Bool) (h : (st.handleError1 k e).1 = Outcome.ret b) :
    (st.handleError1 k e).2.1 = [] := by
  rcases handleError1_spec st k e with hs | ⟨o, ex, _, hs⟩ <;> simp [hs] at h ⊢

theorem handleError1_notifs_le (st : ErrorHandlerRegistry) (k : String)
    (e : RawError) : (st.handleError1 k e).2.1.length ≤ 1 := by
  rcases handleError1_spec st k e with h | ⟨o, ex, _, h⟩
  · simp [h]
  · simp [h, handleErrorObject_notifs_le]

theorem handleError1_exn_shape (st : ErrorHandlerRegistry) (k : String)
    (e : RawError) (ex : Exn) (h : (st.handleError1 k e).1 = Outcome.thrown ex) :
    (∃ m, ex = Exn.apiError m) ∨ ∃ t, ex = Exn.hookExn t := by
  rcases handleError1_spec st k e with hs | ⟨o, ex2, hex, hs⟩
  · simp [hs] at h
  · rw [hs] at h
    simp at h
    rcases handleErrorObject_exn_shape st e o ex2 hex with h2 | h2
    · exact Or.inl ⟨o.message, h ▸ h2⟩
    · exact Or.inr (h ▸ h2)

theorem handleErrorList_frame (st : ErrorHandlerRegistry)
    (l : List (Option String)) (e : RawError) :
    (st.handleErrorList l e).2.2 = st := by
  induction l with
  | nil => simp [handleErrorList]
  | cons hd tl ih =>
    cases hd with
    | none => simpa [handleErrorList] using ih
    | some k =>
      simp only [handleErrorList]
      cases h1 : (st.handleError1 k e).1 with
      | thrown ex => simpa using handleError1_frame st k e
      | ret b =>
        cases b with
        | true => simpa using handleError1_frame st k e
        | false => simp [handleError1_frame, ih]

theorem handleErrorList_ne_true (st : ErrorHandlerRegistry)
    (l : List (Option String)) (e : RawError) :
    (st.handleErrorList l e).1 ≠ Outcome.ret true := by
  induction l with
  | nil => simp [handleErrorList]
  | cons hd tl ih =>
    cases hd with
    | none => simpa [handleErrorList] using ih
    | some k =>
      simp only [handleErrorList]
      cases h1 : (st.handleError1 k e).1 with
      | thrown ex => simp
      | ret b =>
        cases b with
        | true => exact absurd h1 (handleError1_ne_true st k e)
        | false => simpa [handleError1_frame] using ih

theorem handleErrorList_ret_notifs (st : ErrorHandlerRegistry)
    (l : List (Option String)) (e : RawError) (b : Bool)
    (h : (st.handleErrorList l e).1 = Outcome.ret b) :
    (st.handleErrorList l e).2.1 = [] := by
  induction l with
  | nil => simp [handleErrorList]
  | cons hd tl ih =>
    cases hd with
    | none => simpa [handleErrorList] using ih (by simpa [handleErrorList] using h)
    | some k =>
      simp only [handleErrorList] at h ⊢
      cases h1 : (st.handleError1 k e).1 with
      | thrown ex => simp [h1] at h
      | ret b2 =>
        cases b2 with
        | true => exact absurd h1 (handleError1_ne_true st k e)
        | false =>
          simp only [h1] at h ⊢
          simp only [handleError1_frame] at h ⊢
          simp [handleError1_ret_notifs st k e false h1,
            ih (by simpa using h)]

theorem handleErrorList_notifs_le (st : ErrorHandlerRegistry)
    (l : List (Option String)) (e : RawError) :
    (st.handleErrorList l e).2.1.length ≤ 1 := by
  induction l with
  | nil => simp [handleErrorList]
  | cons hd tl ih =>
    cases hd with
    | none => simpa [handleErrorList] using ih
    | some k =>
      simp only [handleErrorList]
      cases h1 : (st.handleError1 k e).1 with
      | thrown ex => simpa using handleError1_notifs_le st k e
      | ret b =>
        cases b with
        | true => simpa using handleError1_notifs_le st k e
        | false =>
          simpa [handleError1_frame,
            handleError1_ret_notifs st k e false h1] using ih

theorem handleErrorList_exn_shape (st : ErrorHandlerRegistry)
    (l : List (Option String)) (e : RawError) (ex : Exn)
    (h : (st.handleErrorList l e).1 = Outcome.thrown ex) :
    (∃ m, ex = Exn.apiError m) ∨ ∃ t, ex = Exn.hookExn t := by
  induction l with
  | nil => simp [handleErrorList] at h
  | cons hd tl ih =>
    cases hd with
    | none => exact ih (by simpa [handleErrorList] using h)
    | some k =>
      simp only [handleErrorList] at h
      cases h1 : (st.handleError1 k e).1 with
      | thrown ex2 =>
        simp only [h1] at h
        simp at h
        exact h ▸ handleError1_exn_shape st k e ex2 h1
      | ret b =>
        cases b with
        | true => exact absurd h1 (handleError1_ne_true st k e)
        | false =>
          simp only [h1, handleError1_frame] at h
          exact ih (by simpa using h)

theorem handleErrorList_eq_leftToRight (st : ErrorHandlerRegistry)
    (l : List (Option String)) (e : RawError) :
    st.handleErrorList l e = leftToRightFirstSuccess st l e := by
  induction l with
  | nil => simp [handleErrorList, leftToRightFirstSuccess]
  | cons hd tl ih =>
    cases hd with
    | none => simpa [handleErrorList, leftToRightFirstSuccess] using ih
    | some k =>
      simp only [handleErrorList, leftToRightFirstSuccess]
      rcases hp : st.handleError1 k e with ⟨o, ns, st1⟩
      have hfr : st1 = st := by
        have h2 := handleError1_frame st k e
        rw [hp] at h2
        exact h2
      cases o with
      | thrown ex => rfl
      | ret b =>
        cases b with
        | true => rfl
        | false =>
          have hns : ns = [] := by
            have h2 := handleError1_ret_notifs st k e false (by rw [hp])
            rw [hp] at h2
            exact h2
          simp [hfr, hns, ih]

theorem handleErrorList_ret_false_all (st : ErrorHandlerRegistry)
    (l : List (Option String)) (e : RawError) (b : Bool)
    (h : (st.handleErrorList l e).1 = Outcome.ret b) :
    ∀ k, some k ∈ l → (st.handleError1 k e).1 = Outcome.ret false := by
  induction l with
  | nil => simp
  | cons hd tl ih =>
    cases hd with
    | none =>
      intro k hk
      rcases List.mem_cons.mp hk with h2 | h2
      · exact absurd h2 (by simp)
      · exact ih (by simpa [handleErrorList] using h) k h2
    | some k0 =>
      simp only [handleErrorList] at h
      cases h1 : (st.handleError1 k0 e).1 with
      | thrown ex => simp [h1] at h
      | ret b2 =>
        cases b2 with
        | true => exact absurd h1 (handleError1_ne_true st k0 e)
        | false =>
          intro k hk
          rcases List.mem_cons.mp hk with h2 | h2
          · cases Option.some.inj h2
            exact h1
          · simp only [h1, handleError1_frame] at h
            exact ih (by simpa using h) k h2

end ErrorHandlerRegistry

theorem mapGet_mapSet (m : List (String × ErrorHandler)) (k : String)
    (v : ErrorHandler) : mapGet (mapSet m k v) k = some v := by
  induction m with
  | nil => simp [mapGet, mapSet]
  | cons hd tl ih =>
    obtain ⟨k2, v2⟩ := hd
    by_cases hk : k2 = k <;> simp [mapGet, mapSet, hk, ih]

namespace ErrorHandlerRegistry

theorem register_notifier (st : ErrorHandlerRegistry) (k : String)
    (h : ErrorHandler) : (st.register k h).notifier = st.notifier := by
  cases st <;> rfl

theorem find_register (st : ErrorHandlerRegistry) (k : String)
    (h : ErrorHandler) (ht : h.truthy = true) :
    (st.register k h).find k = (some h, st.register k h) := by
  cases st <;>
    simp [register, withHandlers, handlers, find, mapGet_mapSet, ht]

theorem handleAxiosError_frame (st : ErrorHandlerRegistry) (a : AxiosErr)
    (direct : Bool) : (st.handleAxiosError a direct).2.2 = st := by
  unfold handleAxiosError
  cases hraw : !direct && rawFlag a.config with
  | true => simp
  | false =>
    simp only [Bool.false_eq_true, if_false]
    cases hmsg : isNonEmptyStr ((a.response.bind AxiosResp.data).bind
        RespData.message) with
    | true => simp [handleErrorObject_frame]
    | false =>
      simp only [Bool.false_eq_true, if_false]
      rcases hp : st.handleErrorList (seekersOf a) (RawError.axios a)
        with ⟨o1, ns, st1⟩
      have hfr : st1 = st := by
        have h2 := handleErrorList_frame st (seekersOf a) (RawError.axios a)
        rw [hp] at h2
        exact h2
      cases o1 with
      | thrown ex => simpa using hfr
      | ret b =>
        cases b with
        | true => simpa using hfr
        | false =>
          cases hg : isNonEmptyStr ((a.response.bind AxiosResp.data).bind
                RespData.description)
              || isNonEmptyStr (some a.message) with
          | true => simp [hg, handleErrorObject_frame, hfr]
          | false => simpa [hg] using hfr

theorem responseErrorHandler_frame (st : ErrorHandlerRegistry) (e : RawError)
    (direct : Bool) : (st.responseErrorHandler e direct).2.2 = st := by
  cases e with
  | nullErr => rfl
  | axios a => simpa [responseErrorHandler] using handleAxiosError_frame st a direct
  | jsError nm msg =>
    simp only [responseErrorHandler]
    rcases hp : st.handleError1 nm (RawError.jsError nm msg) with ⟨o, ns, st1⟩
    have hfr : st1 = st := by
      have h2 := handleError1_frame st nm (RawError.jsError nm msg)
      rw [hp] at h2
      exact h2
    cases o <;> simpa using hfr
  | other t => rfl

end ErrorHandlerRegistry

theorem getField_stable (rest : List (String × NVal)) (k : String)
    (acc : Option NVal) (h : ∀ p ∈ rest, p.1 ≠ k) :
    rest.foldl (fun a p => if p.1 = k then some p.2 else a) acc = acc := by
  induction rest generalizing acc with
  | nil => rfl
  | cons hd tl ih =>
    simp only [List.foldl_cons]
    rw [if_neg (h hd (List.mem_cons_self hd tl))]
    exact ih acc (fun p hp => h p (List.mem_cons_of_mem hd hp))

theorem isNonEmptyStr_some_false (s : String)
    (h : isNonEmptyStr (some s) = false) : s = "" := by
  simpa [isNonEmptyStr] using h

namespace ErrorHandlerRegistry

theorem handleAxiosError_noraw_shape (st : ErrorHandlerRegistry) (a : AxiosErr)
    (direct : Bool) (h : (!direct && rawFlag a.config) = false) :
    (st.handleAxiosError a direct).1 = Outcome.ret () ∨
    (∃ m, (st.handleAxiosError a direct).1 = Outcome.thrown (Exn.apiError m)) ∨
    ∃ t, (st.handleAxiosError a direct).1 = Outcome.thrown (Exn.hookExn t) := by
  unfold handleAxiosError
  rw [if_neg (by simp [h])]
  by_cases hmsg : isNonEmptyStr ((a.response.bind AxiosResp.data).bind
      RespData.message) = true
  · rw [if_pos hmsg]
    obtain ⟨ex, hex⟩ := handleErrorObject_throws st (RawError.axios a)
      { message := ((a.response.bind AxiosResp.data).bind
          RespData.message).getD "", before := none, after := none,
        silent := silentFlag a.config, notify := [] }
    rcases handleErrorObject_exn_shape st (RawError.axios a) _ ex hex
      with h2 | ⟨t, h2⟩
    · exact Or.inr (Or.inl ⟨_, by rw [hex, h2]⟩)
    · exact Or.inr (Or.inr ⟨t, by rw [hex, h2]⟩)
  · rw [if_neg hmsg]
    rcases hp : st.handleErrorList (seekersOf a) (RawError.axios a)
      with ⟨o1, ns, st1⟩
    cases o1 with
    | thrown ex =>
      have hsh := handleErrorList_exn_shape st (seekersOf a) (RawError.axios a)
        ex (by rw [hp])
      rcases hsh with ⟨m, h2⟩ | ⟨t, h2⟩
      · exact Or.inr (Or.inl ⟨m, by simp [h2]⟩)
      · exact Or.inr (Or.inr ⟨t, by simp [h2]⟩)
    | ret b =>
      cases b with
      | true => exact Or.inl (by simp)
      | false =>
        by_cases hg : (isNonEmptyStr ((a.response.bind AxiosResp.data).bind
              RespData.message)
            || isNonEmptyStr ((a.response.bind AxiosResp.data).bind
              RespData.description)
            || isNonEmptyStr (some a.message)) = true
        · obtain ⟨ex, hex⟩ := handleErrorObject_throws st1 (RawError.axios a)
            { message := fallbackMessage a, before := none, after := none,
              silent := silentFlag a.config, notify := [] }
          rcases handleErrorObject_exn_shape st1 (RawError.axios a) _ ex hex
            with h2 | ⟨t, h2⟩
          · exact Or.inr (Or.inl ⟨fallbackMessage a, by simp [hg, hex, h2]⟩)
          · exact Or.inr (Or.inr ⟨t, by simp [hg, hex, h2]⟩)
        · exact Or.inl (by simp [hg])

end ErrorHandlerRegistry

/-
Claim theorems.
-/

open ErrorHandlerRegistry

/-- Claim C1, as stated, is false: executing a descriptor with silent not
true invokes the notifier exactly once, but the options object it receives
has no severity field at all — the code writes the field name type
(`type: 'negative'`), not severity — so the severity field cannot equal
negative. Concrete input: plainDescriptor (message m, silent false)
executed on emptyRegistry. -/
theorem claimC1_counterexample :
    (emptyRegistry.handleErrorObject (RawError.other 0) plainDescriptor).2.1.length
        = 1 ∧
    getField ((emptyRegistry.handleErrorObject (RawError.other 0)
        plainDescriptor).2.1.headD ⟨0, []⟩).options "severity" = none := by
  decide

/-- Claim C1 (amended): for every descriptor executed with silent not true
whose before hook completes, the engine invokes the notifier exactly once,
with the options object written as the literal entries type: negative and
message: descriptor.message followed by the descriptor's notify payload
(object spread, later entries winning); in particular, when the payload
contains neither a type nor a message key, the delivered type field equals
negative and the delivered message field equals the descriptor's message. -/
theorem claimC1 (st : ErrorHandlerRegistry) (e : RawError)
    (o : ErrorHandlerObject) (hb : runHook o.before e = HookBeh.ok)
    (hs : o.silent = false) :
    (st.handleErrorObject e o).2.1 =
      [⟨st.notifier,
        ("type", NVal.str "negative") :: ("message", NVal.str o.message)
          :: o.notify⟩] ∧
    ((∀ p ∈ o.notify, p.1 ≠ "type" ∧ p.1 ≠ "message") →
      getField (("type", NVal.str "negative") :: ("message", NVal.str o.message)
          :: o.notify) "type" = some (NVal.str "negative") ∧
      getField (("type", NVal.str "negative") :: ("message", NVal.str o.message)
          :: o.notify) "message" = some (NVal.str o.message)) := by
  refine ⟨handleErrorObject_notifs_of_before_ok st e o hb hs, fun hnp => ⟨?_, ?_⟩⟩
  · rw [show getField (("type", NVal.str "negative")
          :: ("message", NVal.str o.message) :: o.notify) "type"
        = o.notify.foldl (fun a p => if p.1 = "type" then some p.2 else a)
          (some (NVal.str "negative")) from by simp [getField]]
    exact getField_stable o.notify "type" _ (fun p hp => (hnp p hp).1)
  · rw [show getField (("type", NVal.str "negative")
          :: ("message", NVal.str o.message) :: o.notify) "message"
        = o.notify.foldl (fun a p => if p.1 = "message" then some p.2 else a)
          (some (NVal.str o.message)) from by simp [getField]]
    exact getField_stable o.notify "message" _ (fun p hp => (hnp p hp).2)

/-- Witness for claim C1 at a concrete input: payloadDescriptor on
emptyRegistry, with the hook and silent hypotheses discharged. -/
theorem claimC1_witness :
    (emptyRegistry.handleErrorObject (RawError.other 0) payloadDescriptor).2.1 =
      [⟨0, [("type", NVal.str "negative"), ("message", NVal.str "m"),
        ("extra", NVal.num 42)]⟩] ∧
    getField [("type", NVal.str "negative"), ("message", NVal.str "m"),
        ("extra", NVal.num 42)] "type" = some (NVal.str "negative") ∧
    getField [("type", NVal.str "negative"), ("message", NVal.str "m"),
        ("extra", NVal.num 42)] "message" = some (NVal.str "m") := by
  have h := claimC1 emptyRegistry (RawError.other 0) payloadDescriptor rfl rfl
  exact ⟨h.1, (h.2 (by decide)).1, (h.2 (by decide)).2⟩

/-- Claim C3, as stated, is false for the empty string: a handler that is
the empty string registered under k is falsy, so `find` skips it and
`if (!handler)` would reject it; handleError returns false, raises nothing
and never calls the notifier. Concrete input: emptyStringRegistry, which
registers the empty string under k. -/
theorem claimC3_counterexample :
    (emptyStringRegistry.handleError1 "k" (RawError.other 0)).1
        = Outcome.ret false ∧
    (emptyStringRegistry.handleError1 "k" (RawError.other 0)).2.1 = [] := by
  decide

/-- Claim C3 (amended): for every non-empty string handler h registered
under key k, handleError(k, failure) raises an ApiError whose message
equals h and invokes the notifier exactly once with that message (and the
registry is left unchanged). -/
theorem claimC3 (st : ErrorHandlerRegistry) (k h : String) (e : RawError)
    (hne : h ≠ "") :
    (st.register k (ErrorHandler.str h)).handleError1 k e =
      (Outcome.thrown (Exn.apiError h),
        [⟨st.notifier,
          [("type", NVal.str "negative"), ("message", NVal.str h)]⟩],
        st.register k (ErrorHandler.str h)) := by
  have ht : (ErrorHandler.str h).truthy = true := by
    simp [ErrorHandler.truthy, hne]
  have hf := find_register st k (ErrorHandler.str h) ht
  unfold handleError1
  simp only [hf, ht]
  simp [execThenTrue, handleErrorObject, runHook, register_notifier]

/-- Witness for claim C3 at a concrete input: the key k with the message
msg registered on emptyRegistry. -/
theorem claimC3_witness :
    ("msg" ≠ "") ∧
    (emptyRegistry.register "k" (ErrorHandler.str "msg")).handleError1 "k"
        (RawError.other 0) =
      (Outcome.thrown (Exn.apiError "msg"),
        [⟨0, [("type", NVal.str "negative"), ("message", NVal.str "msg")]⟩],
        emptyRegistry.register "k" (ErrorHandler.str "msg")) :=
  ⟨by decide, claimC3 emptyRegistry "k" "msg" (RawError.other 0) (by decide)⟩

/-- Claim C4, as stated, is false in its child-wins part: when the child's
entry for k is the empty string (falsy), find returns the parent's entry,
not the child's. Concrete input: shadowedChildRegistry (child entry the
empty string, parent entry p). -/
theorem claimC4_counterexample :
    (shadowedChildRegistry.find "k").1 = some (ErrorHandler.str "p") ∧
    (shadowedChildRegistry.find "k").1 ≠ some (ErrorHandler.str "") := by
  refine ⟨rfl, fun h => ?_⟩
  have h1 : ErrorHandler.str "p" = ErrorHandler.str "" := Option.some.inj h
  have h2 : "p" = "" := by injection h1
  exact absurd h2 (by decide)

/-- Claim C4 (amended): find returns the first truthy entry along the
child-to-parent chain: a truthy child entry wins over any parent entry; a
child entry that is absent or falsy (the empty string) is skipped and the
parent chain is consulted; and find signals absence exactly when no truthy
entry exists anywhere in the chain (in particular when k is registered
nowhere). -/
theorem claimC4 :
    (∀ hs n p k h, mapGet hs k = some h → h.truthy = true →
      (ErrorHandlerRegistry.child hs n p).find k =
        (some h, ErrorHandlerRegistry.child hs n p)) ∧
    (∀ hs n p k, (∀ h, mapGet hs k = some h → h.truthy = false) →
      (ErrorHandlerRegistry.child hs n p).find k =
        ((p.find k).1, ErrorHandlerRegistry.child hs n p)) ∧
    (∀ st k, (st.find k).1 = none ↔ chainHasTruthyEntry st k = false) := by
  refine ⟨?_, ?_, ?_⟩
  · intro hs n p k h hm ht
    simp [find, hm, ht]
  · intro hs n p k hloc
    cases hg : mapGet hs k with
    | none => simp [find, hg, find_frame]
    | some h => simp [find, hg, hloc h hg, find_frame]
  · intro st k
    induction st with
    | root hs n =>
      cases hg : mapGet hs k with
      | none => simp [find, hg, chainHasTruthyEntry]
      | some h =>
        by_cases ht : h.truthy = true
        · simp [find, hg, ht, chainHasTruthyEntry]
        · simp only [Bool.not_eq_true] at ht
          simp [find, hg, ht, chainHasTruthyEntry]
    | child hs n p ih =>
      cases hg : mapGet hs k with
      | none => simpa [find, hg, chainHasTruthyEntry] using ih
      | some h =>
        by_cases ht : h.truthy = true
        · simp [find, hg, ht, chainHasTruthyEntry]
        · simp only [Bool.not_eq_true] at ht
          simp [find, hg, ht, chainHasTruthyEntry, ih]

/-- Witness for claim C4 at concrete inputs: a truthy child entry wins; the
falsy child entry of shadowedChildRegistry delegates to the parent; absence
on emptyRegistry coincides with the chain having no truthy entry. -/
theorem claimC4_witness :
    ((ErrorHandlerRegistry.child [("k", ErrorHandler.str "c")] 0
        (ErrorHandlerRegistry.root [("k", ErrorHandler.str "p")] 0)).find "k" =
      (some (ErrorHandler.str "c"),
        ErrorHandlerRegistry.child [("k", ErrorHandler.str "c")] 0
          (ErrorHandlerRegistry.root [("k", ErrorHandler.str "p")] 0))) ∧
    (shadowedChildRegistry.find "k" =
      (((ErrorHandlerRegistry.root [("k", ErrorHandler.str "p")] 0).find "k").1,
        shadowedChildRegistry)) ∧
    ((emptyRegistry.find "q").1 = none ↔
      chainHasTruthyEntry emptyRegistry "q" = false) :=
  ⟨claimC4.1 [("k", ErrorHandler.str "c")] 0
      (ErrorHandlerRegistry.root [("k", ErrorHandler.str "p")] 0) "k"
      (ErrorHandler.str "c") rfl (by decide),
    claimC4.2.1 [("k", ErrorHandler.str "")] 0
      (ErrorHandlerRegistry.root [("k", ErrorHandler.str "p")] 0) "k"
      (fun h hh => by cases Option.some.inj hh; decide),
    claimC4.2.2 emptyRegistry "q"⟩

/-- Claim C5, as stated, is false: silent: true on the transport failure's
config does not suppress the notifier when the failure resolves through the
key registry — the registered descriptor is executed and config.silent is
never consulted on that path. Concrete input: silentKeyAxiosErr
(config.silent true, code ECODE, no body) dispatched on ecodeRegistry still
notifies (and raises). -/
theorem claimC5_counterexample :
    (ecodeRegistry.responseErrorHandler (RawError.axios silentKeyAxiosErr)
        false).2.1 =
      [⟨0, [("type", NVal.str "negative"), ("message", NVal.str "handled")]⟩] ∧
    (ecodeRegistry.responseErrorHandler (RawError.axios silentKeyAxiosErr)
        false).1 = Outcome.thrown (Exn.apiError "handled") := by
  decide

/-- Claim C5 (amended): silent: true on the executed descriptor suppresses
the notifier call and, when its hooks complete, the ApiError is still
raised; config.silent suppresses the notifier only on the two branches that
synthesise their descriptor from it — the body-message branch and the
fallback branch — again still raising the ApiError; it has no effect on the
key-registry path. -/
theorem claimC5 :
    (∀ st e o, o.silent = true →
      (ErrorHandlerRegistry.handleErrorObject st e o).2.1 = [] ∧
      (runHook o.before e = HookBeh.ok → runHook o.after e = HookBeh.ok →
        (ErrorHandlerRegistry.handleErrorObject st e o).1 =
          Outcome.thrown (Exn.apiError o.message))) ∧
    (∀ st a direct, silentFlag a.config = true →
      (!direct && rawFlag a.config) = false →
      isNonEmptyStr ((a.response.bind AxiosResp.data).bind RespData.message)
        = true →
      (ErrorHandlerRegistry.handleAxiosError st a direct).2.1 = [] ∧
      (ErrorHandlerRegistry.handleAxiosError st a direct).1 =
        Outcome.thrown (Exn.apiError
          (((a.response.bind AxiosResp.data).bind RespData.message).getD ""))) ∧
    (∀ st a direct, silentFlag a.config = true →
      (!direct && rawFlag a.config) = false →
      isNonEmptyStr ((a.response.bind AxiosResp.data).bind RespData.message)
        = false →
      (ErrorHandlerRegistry.handleErrorList st (seekersOf a)
        (RawError.axios a)).1 = Outcome.ret false →
      (isNonEmptyStr ((a.response.bind AxiosResp.data).bind RespData.description)
        || isNonEmptyStr (some a.message)) = true →
      (ErrorHandlerRegistry.handleAxiosError st a direct).2.1 = [] ∧
      (ErrorHandlerRegistry.handleAxiosError st a direct).1 =
        Outcome.thrown (Exn.apiError (fallbackMessage a))) := by
  refine ⟨?_, ?_, ?_⟩
  · intro st e o hsil
    exact ⟨handleErrorObject_silent st e o hsil,
      fun hb ha => handleErrorObject_hooks_ok st e o hb ha⟩
  · intro st a direct hsil hraw hmsg
    unfold ErrorHandlerRegistry.handleAxiosError
    rw [if_neg (by simp [hraw]), if_pos hmsg]
    constructor
    · exact handleErrorObject_silent st (RawError.axios a) _ hsil
    · exact handleErrorObject_hooks_ok st (RawError.axios a) _ rfl rfl
  · intro st a direct hsil hraw hmsg hlist hg
    unfold ErrorHandlerRegistry.handleAxiosError
    rw [if_neg (by simp [hraw]), if_neg (by simp [hmsg])]
    rcases hp : st.handleErrorList (seekersOf a) (RawError.axios a)
      with ⟨o1, ns, st1⟩
    have ho1 : o1 = Outcome.ret false := by
      rw [hp] at hlist
      exact hlist
    subst ho1
    have hns : ns = [] := by
      have h2 := handleErrorList_ret_notifs st (seekersOf a) (RawError.axios a)
        false (by rw [hp])
      rw [hp] at h2
      exact h2
    have hguard : (isNonEmptyStr ((a.response.bind AxiosResp.data).bind
          RespData.message)
        || isNonEmptyStr ((a.response.bind AxiosResp.data).bind
          RespData.description)
        || isNonEmptyStr (some a.message)) = true := by
      rw [hmsg]
      simpa using hg
    constructor
    · simp only [hguard, Bool.not_false, if_true, if_pos]
      simp [hns, handleErrorObject_silent st1 (RawError.axios a)
        { message := fallbackMessage a, before := none, after := none,
          silent := silentFlag a.config, notify := [] } hsil]
    · simp only [hguard, Bool.not_false, if_true, if_pos]
      simp [handleErrorObject_hooks_ok st1 (RawError.axios a)
        { message := fallbackMessage a, before := none, after := none,
          silent := silentFlag a.config, notify := [] } rfl rfl]

/-- Witness for claim C5 at concrete inputs: a silent descriptor on
emptyRegistry; silentBodyAxiosErr (silent body-message branch) on
emptyRegistry; silentKeyAxiosErr on emptyRegistry, where no key matches and
the fallback descriptor inherits config.silent. -/
theorem claimC5_witness :
    ((emptyRegistry.handleErrorObject (RawError.other 0)
        ⟨"s", none, none, true, []⟩).2.1 = [] ∧
      (emptyRegistry.handleErrorObject (RawError.other 0)
          ⟨"s", none, none, true, []⟩).1 =
        Outcome.thrown (Exn.apiError "s")) ∧
    ((emptyRegistry.handleAxiosError silentBodyAxiosErr false).2.1 = [] ∧
      (emptyRegistry.handleAxiosError silentBodyAxiosErr false).1 =
        Outcome.thrown (Exn.apiError "msg API")) ∧
    ((emptyRegistry.handleAxiosError silentKeyAxiosErr false).2.1 = [] ∧
      (emptyRegistry.handleAxiosError silentKeyAxiosErr false).1 =
        Outcome.thrown (Exn.apiError "x")) := by
  refine ⟨⟨(claimC5.1 emptyRegistry (RawError.other 0)
      ⟨"s", none, none, true, []⟩ rfl).1,
    (claimC5.1 emptyRegistry (RawError.other 0)
      ⟨"s", none, none, true, []⟩ rfl).2 rfl rfl⟩,
    claimC5.2.1 emptyRegistry silentBodyAxiosErr false rfl (by decide)
      (by decide),
    claimC5.2.2 emptyRegistry silentKeyAxiosErr false rfl (by decide)
      (by decide) (by decide) (by decide)⟩

/-- Claim C6 (confirmed): a transport failure with config.raw true and
direct false is re-raised as exactly the original failure object, with no
notification and the registry unchanged; with direct true the raw branch is
unreachable and dispatch proceeds to body/key resolution, whose only
possible outcomes are the undefined completion, a raised ApiError or a hook
exception — never the raw re-raise; and every closure produced by
createDealWith dispatches with direct set to true on the freshly built
local registry. -/
theorem claimC6 :
    (∀ st a, rawFlag a.config = true →
      ErrorHandlerRegistry.responseErrorHandler st (RawError.axios a) false =
        (Outcome.thrown (Exn.original (RawError.axios a)), [], st)) ∧
    (∀ st a, rawFlag a.config = true →
      (ErrorHandlerRegistry.handleAxiosError st a true).1 = Outcome.ret () ∨
      (∃ m, (ErrorHandlerRegistry.handleAxiosError st a true).1 =
        Outcome.thrown (Exn.apiError m)) ∨
      ∃ t, (ErrorHandlerRegistry.handleAxiosError st a true).1 =
        Outcome.thrown (Exn.hookExn t)) ∧
    (∀ g ntf sols ig e, createDealWith g ntf sols ig e =
      ErrorHandlerRegistry.responseErrorHandler
        (ErrorHandlerRegistry.new (if ig then none else some g) sols ntf)
        e true) := by
  refine ⟨?_, ?_, ?_⟩
  · intro st a hr
    simp only [ErrorHandlerRegistry.responseErrorHandler]
    unfold ErrorHandlerRegistry.handleAxiosError
    rw [if_pos (by simp [hr])]
  · intro st a _
    exact handleAxiosError_noraw_shape st a true (by simp)
  · intro g ntf sols ig e
    rfl

/-- Witness for claim C6 at concrete inputs: rawAxiosErr (config.raw true)
on emptyRegistry, and a createDealWith closure over emptyRegistry. -/
theorem claimC6_witness :
    (ErrorHandlerRegistry.responseErrorHandler emptyRegistry
        (RawError.axios rawAxiosErr) false =
      (Outcome.thrown (Exn.original (RawError.axios rawAxiosErr)), [],
        emptyRegistry)) ∧
    ((ErrorHandlerRegistry.handleAxiosError emptyRegistry rawAxiosErr true).1
        = Outcome.ret () ∨
      (∃ m, (ErrorHandlerRegistry.handleAxiosError emptyRegistry rawAxiosErr
        true).1 = Outcome.thrown (Exn.apiError m)) ∨
      ∃ t, (ErrorHandlerRegistry.handleAxiosError emptyRegistry rawAxiosErr
        true).1 = Outcome.thrown (Exn.hookExn t)) ∧
    (createDealWith emptyRegistry none [] false (RawError.other 0) =
      ErrorHandlerRegistry.responseErrorHandler
        (ErrorHandlerRegistry.new (if false then none else some emptyRegistry)
          [] none)
        (RawError.other 0) true) :=
  ⟨claimC6.1 emptyRegistry rawAxiosErr rfl,
    claimC6.2.1 emptyRegistry rawAxiosErr rfl,
    claimC6.2.2 emptyRegistry none [] false (RawError.other 0)⟩

/-- Claim C7, as stated, is false: when config.silent is true the body
message still wins and the raised ApiError carries it, but no notification
is issued, so dispatch does not notify with the body message. Concrete
input: silentBodyAxiosErr (body message msg API, config.silent true) on
emptyRegistry. -/
theorem claimC7_counterexample :
    (emptyRegistry.responseErrorHandler (RawError.axios silentBodyAxiosErr)
        false).1 = Outcome.thrown (Exn.apiError "msg API") ∧
    (emptyRegistry.responseErrorHandler (RawError.axios silentBodyAxiosErr)
        false).2.1 = [] := by
  decide

/-- Claim C7 (amended): for every transport failure not raw-overridden
whose body data.message is a non-empty string m, dispatch raises an
ApiError carrying exactly m without consulting the key registry (the result
is the same for every registry — only the installed notifier appears in
it — and the registry is returned unchanged), and it notifies with m
unless config.silent is true. -/
theorem claimC7 (st : ErrorHandlerRegistry) (a : AxiosErr) (direct : Bool)
    (m : String)
    (hm : (a.response.bind AxiosResp.data).bind RespData.message = some m)
    (hne : m ≠ "")
    (hraw : (!direct && rawFlag a.config) = false) :
    st.responseErrorHandler (RawError.axios a) direct =
      (Outcome.thrown (Exn.apiError m),
        (if silentFlag a.config then []
          else [⟨st.notifier,
            [("type", NVal.str "negative"), ("message", NVal.str m)]⟩]),
        st) := by
  have hmsg : isNonEmptyStr ((a.response.bind AxiosResp.data).bind
      RespData.message) = true := by
    simp [hm, isNonEmptyStr, hne]
  simp only [ErrorHandlerRegistry.responseErrorHandler]
  unfold ErrorHandlerRegistry.handleAxiosError
  rw [if_neg (by simp [hraw]), if_pos hmsg, hm]
  by_cases hsil : silentFlag a.config = true <;>
    simp [ErrorHandlerRegistry.handleErrorObject, runHook, hsil]

theorem handleAxiosError_ret_iff (st : ErrorHandlerRegistry) (a : AxiosErr)
    (direct : Bool) :
    (st.handleAxiosError a direct).1 = Outcome.ret () ↔
      voidFallthrough st a direct := by
  unfold ErrorHandlerRegistry.handleAxiosError
  by_cases hraw : (!direct && rawFlag a.config) = true
  · rw [if_pos hraw]
    simp [voidFallthrough, hraw]
  · have hraw' : (!direct && rawFlag a.config) = false := by
      revert hraw
      cases !direct && rawFlag a.config <;> simp
    rw [if_neg hraw]
    by_cases hmsg : isNonEmptyStr ((a.response.bind AxiosResp.data).bind
        RespData.message) = true
    · rw [if_pos hmsg]
      obtain ⟨ex, hex⟩ := handleErrorObject_throws st (RawError.axios a)
        { message := ((a.response.bind AxiosResp.data).bind
            RespData.message).getD "", before := none, after := none,
          silent := silentFlag a.config, notify := [] }
      simp [voidFallthrough, hex, hmsg]
    · have hmsg' : isNonEmptyStr ((a.response.bind AxiosResp.data).bind
          RespData.message) = false := by
        revert hmsg
        cases isNonEmptyStr ((a.response.bind AxiosResp.data).bind
          RespData.message) <;> simp
      rw [if_neg hmsg]
      rcases hp : st.handleErrorList (seekersOf a) (RawError.axios a)
        with ⟨o1, ns, st1⟩
      cases o1 with
      | thrown ex => simp [voidFallthrough, hraw', hmsg', hp]
      | ret b =>
        cases b with
        | true =>
          exact absurd
            (show (st.handleErrorList (seekersOf a) (RawError.axios a)).1 =
              Outcome.ret true by rw [hp])
            (handleErrorList_ne_true st (seekersOf a) (RawError.axios a))
        | false =>
          by_cases hg : (isNonEmptyStr ((a.response.bind AxiosResp.data).bind
                RespData.message)
              || isNonEmptyStr ((a.response.bind AxiosResp.data).bind
                RespData.description)
              || isNonEmptyStr (some a.message)) = true
          · obtain ⟨ex, hex⟩ := handleErrorObject_throws st1 (RawError.axios a)
              { message := fallbackMessage a, before := none, after := none,
                silent := silentFlag a.config, notify := [] }
            have hdm : (isNonEmptyStr ((a.response.bind AxiosResp.data).bind
                  RespData.description)
                || isNonEmptyStr (some a.message)) = true := by
              simpa [hmsg'] using hg
            constructor
            · intro h
              exfalso
              simp [hg, hex] at h
            · rintro ⟨h1, h2, h3, hdesc, hmsgeq⟩
              exfalso
              rw [hdesc] at hdm
              simp at hdm
              rw [hmsgeq] at hdm
              simp [isNonEmptyStr] at hdm
          · cases hdesc : isNonEmptyStr ((a.response.bind AxiosResp.data).bind
                RespData.description) with
            | true => exact absurd (by simp [hmsg', hdesc]) hg
            | false =>
              cases hms : isNonEmptyStr (some a.message) with
              | true => exact absurd (by simp [hmsg', hdesc, hms]) hg
              | false =>
                simp [hg, voidFallthrough, hraw', hmsg', hp, hdesc,
                  isNonEmptyStr_some_false _ hms]

/-- Claim C2, as stated, is false: responseErrorHandler never returns a
boolean in the first place, and it can complete normally with an undefined
outcome. Concrete input: noAvenueAxiosErr (axios failure with no response,
no config and an empty message) on emptyRegistry completes normally with
undefined — no raise and no boolean signal. -/
theorem claimC2_counterexample :
    (emptyRegistry.responseErrorHandler (RawError.axios noAvenueAxiosErr)
        false).1 = Outcome.ret () := by
  decide

/-- Claim C2 (amended): for every non-null failure, responseErrorHandler
either raises or completes normally returning undefined (never a boolean —
the boolean from handleError is discarded internally); the undefined
completion occurs exactly when the failure is an axios error whose raw
passthrough is not taken, whose body carries no non-empty message, whose
candidate keys all fail to dispatch, whose body carries no non-empty
description, and whose own message is empty. -/
theorem claimC2 (st : ErrorHandlerRegistry) (e : RawError) (direct : Bool) :
    (st.responseErrorHandler e direct).1 = Outcome.ret () ↔
      ∃ a, e = RawError.axios a ∧ voidFallthrough st a direct := by
  cases e with
  | nullErr => simp [ErrorHandlerRegistry.responseErrorHandler]
  | other t => simp [ErrorHandlerRegistry.responseErrorHandler]
  | jsError nm msg =>
    simp only [ErrorHandlerRegistry.responseErrorHandler]
    rcases hp : st.handleError1 nm (RawError.jsError nm msg) with ⟨o, ns, st1⟩
    cases o <;> simp
  | axios a =>
    simp only [ErrorHandlerRegistry.responseErrorHandler]
    rw [handleAxiosError_ret_iff]
    constructor
    · exact fun hv => ⟨a, rfl, hv⟩
    · rintro ⟨a2, ha2, hv⟩
      cases RawError.axios.inj ha2
      exact hv

/-- Witness for claim C7 at a concrete input: bodyWinsAxiosErr carries both
the body message msg API and the registered code ECODE; dispatched on
ecodeRegistry, the body message wins and is the one notified. -/
theorem claimC7_witness :
    ecodeRegistry.responseErrorHandler (RawError.axios bodyWinsAxiosErr)
        false =
      (Outcome.thrown (Exn.apiError "msg API"),
        [⟨0, [("type", NVal.str "negative"), ("message", NVal.str "msg API")]⟩],
        ecodeRegistry) := by
  have h := claimC7 ecodeRegistry bodyWinsAxiosErr false "msg API" rfl
    (by decide) (by decide)
  simpa using h

/-- Claim C8 (confirmed): the multi-key form of handleError equals the
spec-level strict left-to-right first-success search (so keys are tried in
order, undefined entries are skipped, and the search stops at the first key
whose dispatch succeeds); the notifier is invoked at most once per call;
and a false result means every defined key's dispatch returned false. -/
theorem claimC8 (st : ErrorHandlerRegistry) (keys : List (Option String))
    (e : RawError) :
    st.handleErrorList keys e = leftToRightFirstSuccess st keys e ∧
    (st.handleErrorList keys e).2.1.length ≤ 1 ∧
    ((st.handleErrorList keys e).1 = Outcome.ret false →
      ∀ k, some k ∈ keys → (st.handleError1 k e).1 = Outcome.ret false) :=
  ⟨handleErrorList_eq_leftToRight st keys e,
    handleErrorList_notifs_le st keys e,
    fun h => handleErrorList_ret_false_all st keys e false h⟩

/-- Witness for claim C8 at a concrete input: goodRegistry with the key
list bad (unregistered) then an undefined entry; the false-result
hypothesis is discharged by evaluation. -/
theorem claimC8_witness :
    (goodRegistry.handleErrorList [some "bad", none] (RawError.other 0) =
      leftToRightFirstSuccess goodRegistry [some "bad", none]
        (RawError.other 0)) ∧
    (goodRegistry.handleErrorList [some "bad", none]
      (RawError.other 0)).2.1.length ≤ 1 ∧
    (goodRegistry.handleError1 "bad" (RawError.other 0)).1 =
      Outcome.ret false :=
  ⟨(claimC8 goodRegistry [some "bad", none] (RawError.other 0)).1,
    (claimC8 goodRegistry [some "bad", none] (RawError.other 0)).2.1,
    (claimC8 goodRegistry [some "bad", none] (RawError.other 0)).2.2
      (by decide) "bad" (by decide)⟩

/-- Claim C9 (confirmed): handleError never returns true — for every key
or key sequence and every failure it either returns false or raises, and
every raised exception is an ApiError produced by executing a descriptor or
an exception propagated out of a before/after hook. -/
theorem claimC9 (st : ErrorHandlerRegistry) (seek : SeekArg) (e : RawError) :
    (st.handleError seek e).1 ≠ Outcome.ret true ∧
    ((st.handleError seek e).1 = Outcome.ret false ∨
      ∃ ex, (st.handleError seek e).1 = Outcome.thrown ex ∧
        ((∃ m, ex = Exn.apiError m) ∨ ∃ t, ex = Exn.hookExn t)) := by
  cases seek with
  | one s =>
    refine ⟨handleError1_ne_true st s e, ?_⟩
    cases h : (st.handleError1 s e).1 with
    | ret b =>
      cases b with
      | true => exact absurd h (handleError1_ne_true st s e)
      | false => exact Or.inl h
    | thrown ex => exact Or.inr ⟨ex, h, handleError1_exn_shape st s e ex h⟩
  | many l =>
    refine ⟨handleErrorList_ne_true st l e, ?_⟩
    cases h : (st.handleErrorList l e).1 with
    | ret b =>
      cases b with
      | true => exact absurd h (handleErrorList_ne_true st l e)
      | false => exact Or.inl h
    | thrown ex => exact Or.inr ⟨ex, h, handleErrorList_exn_shape st l e ex h⟩

/-- Claim C10 (confirmed): every dispatch-side operation — find,
handleError (single-key and multi-key), handleErrorObject, handleAxiosError
and responseErrorHandler — returns the registry state it was given: the
handlers mapping, the parent reference and the notifier are only changed by
register, unregister, registerMany, setNotifier and the constructor. -/
theorem claimC10 (st : ErrorHandlerRegistry) (k : String) (seek : SeekArg)
    (e : RawError) (o : ErrorHandlerObject) (a : AxiosErr) (direct : Bool) :
    (st.find k).2 = st ∧
    (st.handleError seek e).2.2 = st ∧
    (st.handleErrorObject e o).2.2 = st ∧
    (st.handleAxiosError a direct).2.2 = st ∧
    (st.responseErrorHandler e direct).2.2 = st := by
  refine ⟨find_frame st k, ?_, handleErrorObject_frame st e o,
    handleAxiosError_frame st a direct, responseErrorHandler_frame st e direct⟩
  cases seek with
  | one s => exact handleError1_frame st s e
  | many l => exact handleErrorList_frame st l e

end AEM
